import Mathlib

/-!
Verification of the student CRUD backend (`src/backend/main.go`).

The Go program is shallowly embedded: the PostgreSQL table is a list of rows
plus the SERIAL sequence counter and the server's current date; each HTTP
handler becomes a pure function from a request and a store state to a
response, a new store state, the number of store round trips performed and
the log lines emitted.  `net/http`'s `Error` helper is modelled faithfully
(it overwrites the Content-Type header with `text/plain; charset=utf-8`,
adds `X-Content-Type-Options: nosniff` and appends a newline to the body),
and `strconv.Atoi` is modelled with its sign handling and 64-bit range
check.
-/

/-- The Go struct `Student` from main.go: the JSON shape of one record.
A decoded request body is a `Student` whose omitted JSON fields hold the
Go zero value `""` / `0`. -/
structure Student where
  id : Int
  first_name : String
  last_name : String
  email : String
  enrollment_date : String
deriving Repr, DecidableEq

/-- One row of the `students` table.  `enrollment_date` is a nullable DATE
column (the DDL gives it a default but no NOT NULL), so it is an
`Option String`; a NULL there makes `rows.Scan` into a Go `string` fail. -/
structure DBRow where
  id : Int
  first_name : String
  last_name : String
  email : String
  enrollment_date : Option String
deriving Repr, DecidableEq

/-- The state of the PostgreSQL store: the table rows, the next value of the
SERIAL `id` sequence, and CURRENT_DATE rendered as text. -/
structure DBState where
  rows : List DBRow
  nextId : Int
  currentDate : String
deriving Repr, DecidableEq

/-- `rows.Scan` of one row into the `Student` struct: fails (returns `none`)
when the nullable `enrollment_date` column is NULL. -/
def scanRow (r : DBRow) : Option Student :=
  match r.enrollment_date with
  | none => none
  | some d => some ⟨r.id, r.first_name, r.last_name, r.email, d⟩

/-- A request body as seen by `json.NewDecoder(r.Body).Decode(&s)`: either
the decode errors (malformed JSON or wrong field types), or it yields a
`Student` struct, with Go zero values for fields absent from the JSON. -/
inductive Body where
  | malformed
  | valid (s : Student)
deriving Repr, DecidableEq

/-- An HTTP request as the handlers see it: `r.Method`, `r.URL.Path` and the
decodable view of `r.Body`. -/
structure Request where
  method : String
  path : String
  body : Body
deriving Repr, DecidableEq

/-- A response body: empty (no write), the plain-text output of
`http.Error`, or the `json.Encoder` output for one record, a record array,
or the JSON `null` that a nil Go slice encodes to. -/
inductive RespBody where
  | empty
  | text (s : String)
  | jsonStudent (s : Student)
  | jsonStudents (l : List Student)
  | jsonNull
deriving Repr, DecidableEq

/-- Response headers, in insertion order. -/
abbrev Headers := List (String × String)

/-- `w.Header().Set(k, v)`: replaces the value if the key is present,
appends it otherwise. -/
def setHeader (hs : Headers) (k v : String) : Headers :=
  if hs.any (fun p => p.1 == k) then
    hs.map (fun p => if p.1 == k then (k, v) else p)
  else
    hs ++ [(k, v)]

/-- Header lookup (first match). -/
def getHeader (hs : Headers) (k : String) : Option String :=
  (hs.find? (fun p => p.1 == k)).map (fun p => p.2)

/-- An HTTP response: status code, headers and body. -/
structure Response where
  status : Nat
  headers : Headers
  body : RespBody
deriving Repr, DecidableEq

/-- The result of running one handler: the response, the store state after
the request, how many store round trips were made, and the lines written
with `log.Println`. -/
structure HandlerResult where
  resp : Response
  db : DBState
  storeAccesses : Nat
  log : List String
deriving Repr, DecidableEq

/-- The four headers both handlers set before doing anything else. -/
def corsHeaders : Headers :=
  setHeader
    (setHeader
      (setHeader
        (setHeader [] "Content-Type" "application/json")
        "Access-Control-Allow-Origin" "*")
      "Access-Control-Allow-Methods" "GET, POST, OPTIONS, PUT, DELETE")
    "Access-Control-Allow-Headers" "Content-Type"

/-- `http.Error(w, msg, code)` from net/http: sets Content-Type to
`text/plain; charset=utf-8` and `X-Content-Type-Options: nosniff` on the
headers already present, writes the status code, and writes `msg`
followed by a newline. -/
def httpError (hs : Headers) (msg : String) (code : Nat) : Response :=
  { status := code
    headers := setHeader (setHeader hs "Content-Type" "text/plain; charset=utf-8")
      "X-Content-Type-Options" "nosniff"
    body := .text (msg ++ "\n") }

/-- The text with which PostgreSQL rejects an INSERT or UPDATE that would
duplicate an email (unique constraint on the email column). -/
def dupEmailErr : String :=
  "pq: duplicate key value violates unique constraint students_email_key"

/-- The error text of a failed `rows.Scan` / `Row.Scan` (NULL into string). -/
def scanErr : String :=
  "sql: Scan error on column index 4: converting NULL to string is unsupported"

/-- `INSERT INTO students (first_name, last_name, email) VALUES ($1,$2,$3)
RETURNING id, enrollment_date`: fails when the email is already present;
otherwise appends a row whose `id` is the sequence value and whose
`enrollment_date` is CURRENT_DATE, and returns both. -/
def dbInsertReturning (db : DBState) (fn ln em : String) :
    Except String (DBState × Int × String) :=
  if db.rows.any (fun r => r.email == em) then
    .error dupEmailErr
  else
    .ok ({ rows := db.rows ++ [⟨db.nextId, fn, ln, em, some db.currentDate⟩]
           nextId := db.nextId + 1
           currentDate := db.currentDate },
         db.nextId, db.currentDate)

/-- `UPDATE students SET first_name=$1, last_name=$2, email=$3 WHERE id=$4`:
errors when an updated row would duplicate the email of a different row;
otherwise overwrites the three columns of every matching row and returns
the new state with the affected-row count. -/
def dbUpdateExec (db : DBState) (fn ln em : String) (id : Int) :
    Except String (DBState × Nat) :=
  if db.rows.any (fun r => r.id == id) &&
     db.rows.any (fun r => r.email == em && !(r.id == id)) then
    .error dupEmailErr
  else
    .ok ({ rows := db.rows.map (fun r =>
             if r.id == id then ⟨r.id, fn, ln, em, r.enrollment_date⟩ else r)
           nextId := db.nextId
           currentDate := db.currentDate },
         (db.rows.filter (fun r => r.id == id)).length)

/-- `DELETE FROM students WHERE id = $1`: removes every matching row and
returns the affected-row count. -/
def dbDeleteExec (db : DBState) (id : Int) : DBState × Nat :=
  ({ rows := db.rows.filter (fun r => !(r.id == id))
     nextId := db.nextId
     currentDate := db.currentDate },
   (db.rows.filter (fun r => r.id == id)).length)

/-- Row order used by `SELECT ... ORDER BY id`. -/
def rowLe (a b : DBRow) : Prop := a.id ≤ b.id

instance : DecidableRel rowLe := fun a b => Int.decLe a.id b.id

instance : IsTotal DBRow rowLe := ⟨fun a b => Int.le_total a.id b.id⟩

instance : IsTrans DBRow rowLe := ⟨fun _ _ _ h h' => Int.le_trans h h'⟩

/-- `SELECT id, first_name, last_name, email, enrollment_date FROM students
ORDER BY id`: the table rows sorted by ascending id. -/
def dbQueryAll (db : DBState) : List DBRow :=
  List.insertionSort rowLe db.rows

/-- A Go slice of students: `nil` or a (possibly empty) backing list.
`json.Encode` writes `null` for a nil slice and `[]` for an empty one. -/
structure GoSlice where
  isNil : Bool
  elems : List Student
deriving Repr, DecidableEq

/-- `students := []Student\x7b\x7d` — the non-nil empty slice literal. -/
def emptySliceLit : GoSlice := ⟨false, []⟩

/-- `students = append(students, s)`. -/
def GoSlice.push (sl : GoSlice) (s : Student) : GoSlice := ⟨false, sl.elems ++ [s]⟩

/-- `json.NewEncoder(w).Encode(students)`. -/
def encodeSlice (sl : GoSlice) : RespBody :=
  if sl.isNil then .jsonNull else .jsonStudents sl.elems

/-- The `for rows.Next()` loop of `getAllStudents`: scan each row; on a scan
error log the problem and `continue`, otherwise append to the slice. -/
def scanLoop : List DBRow → GoSlice → List String → GoSlice × List String
  | [], acc, lg => (acc, lg)
  | r :: rest, acc, lg =>
    match scanRow r with
    | none => scanLoop rest acc (lg ++ ["Error scanning student:"])
    | some s => scanLoop rest (acc.push s) lg

/-- `getAllStudents`: query all rows ordered by id, scan them (skipping
rows that fail to scan), and encode the slice with implicit status 200. -/
def getAllStudents (hs : Headers) (db : DBState) : HandlerResult :=
  let rows := dbQueryAll db
  let (sl, lg) := scanLoop rows emptySliceLit []
  { resp := { status := 200, headers := hs, body := encodeSlice sl }
    db := db
    storeAccesses := 1
    log := lg }

/-- `createStudent`: decode the body (400 on failure, no store access);
INSERT RETURNING (500 with the store error text on failure); on success
overwrite `s.ID` and `s.EnrollmentDate` with the returned values, write
status 201 and encode the struct. -/
def createStudent (hs : Headers) (body : Body) (db : DBState) : HandlerResult :=
  match body with
  | .malformed =>
    { resp := httpError hs "Invalid request body" 400
      db := db, storeAccesses := 0, log := [] }
  | .valid s =>
    match dbInsertReturning db s.first_name s.last_name s.email with
    | .error e =>
      { resp := httpError hs ("Error creating student: " ++ e) 500
        db := db, storeAccesses := 1, log := [] }
    | .ok (db2, newId, date) =>
      { resp := { status := 201, headers := hs
                  body := .jsonStudent ⟨newId, s.first_name, s.last_name,
                                        s.email, date⟩ }
        db := db2, storeAccesses := 1, log := [] }

/-- `getStudentByID`: `QueryRow ... WHERE id = $1` then `Scan`; ErrNoRows
gives 404, another scan error gives 500, success encodes the record. -/
def getStudentByID (hs : Headers) (db : DBState) (id : Int) : HandlerResult :=
  match db.rows.find? (fun r => r.id == id) with
  | none =>
    { resp := httpError hs "Student not found" 404
      db := db, storeAccesses := 1, log := [] }
  | some r =>
    match scanRow r with
    | none =>
      { resp := httpError hs scanErr 500
        db := db, storeAccesses := 1, log := [] }
    | some s =>
      { resp := { status := 200, headers := hs, body := .jsonStudent s }
        db := db, storeAccesses := 1, log := [] }

/-- `updateStudent`: decode the body (400 on failure, no store access);
UPDATE all three mutable columns (500 with the store error on failure);
404 when the affected-row count is zero; otherwise set `s.ID = id` and
encode the struct — `s.EnrollmentDate` is whatever the body carried. -/
def updateStudent (hs : Headers) (body : Body) (db : DBState) (id : Int) :
    HandlerResult :=
  match body with
  | .malformed =>
    { resp := httpError hs "Invalid request body" 400
      db := db, storeAccesses := 0, log := [] }
  | .valid s =>
    match dbUpdateExec db s.first_name s.last_name s.email id with
    | .error e =>
      { resp := httpError hs e 500
        db := db, storeAccesses := 1, log := [] }
    | .ok (db2, affected) =>
      if affected == 0 then
        { resp := httpError hs "Student not found" 404
          db := db2, storeAccesses := 1, log := [] }
      else
        { resp := { status := 200, headers := hs
                    body := .jsonStudent ⟨id, s.first_name, s.last_name,
                                          s.email, s.enrollment_date⟩ }
          db := db2, storeAccesses := 1, log := [] }

/-- `deleteStudent`: DELETE by id; 404 when the affected-row count is zero,
otherwise status 204 with no body written. -/
def deleteStudent (hs : Headers) (db : DBState) (id : Int) : HandlerResult :=
  let (db2, affected) := dbDeleteExec db id
  if affected == 0 then
    { resp := httpError hs "Student not found" 404
      db := db2, storeAccesses := 1, log := [] }
  else
    { resp := { status := 204, headers := hs, body := .empty }
      db := db2, storeAccesses := 1, log := [] }

/-- `strconv.Atoi` digit accumulation: every character must be a decimal
digit and the string must be non-empty. -/
def parseDigits (cs : List Char) : Option Nat :=
  match cs with
  | [] => none
  | _ =>
    cs.foldl
      (fun acc c =>
        match acc with
        | none => none
        | some a =>
          if '0' ≤ c ∧ c ≤ '9' then some (a * 10 + (c.toNat - '0'.toNat))
          else none)
      (some 0)

/-- `strconv.Atoi`: optional single leading sign, at least one digit, all
digits, and the value must fit a 64-bit signed integer. -/
def atoi (s : String) : Option Int :=
  let cs := s.toList
  let (neg, digits) :=
    match cs with
    | '-' :: rest => (true, rest)
    | '+' :: rest => (false, rest)
    | _ => (false, cs)
  match parseDigits digits with
  | none => none
  | some n =>
    let v : Int := if neg then -(n : Int) else (n : Int)
    if -(2 ^ 63) ≤ v ∧ v ≤ 2 ^ 63 - 1 then some v else none

/-- `studentsHandler` for the collection path `/api/students`: set the four
headers, short-circuit OPTIONS, dispatch GET and POST, 405 otherwise. -/
def studentsHandler (req : Request) (db : DBState) : HandlerResult :=
  let hs := corsHeaders
  if req.method == "OPTIONS" then
    { resp := { status := 200, headers := hs, body := .empty }
      db := db, storeAccesses := 0, log := [] }
  else if req.method == "GET" then
    getAllStudents hs db
  else if req.method == "POST" then
    createStudent hs req.body db
  else
    { resp := httpError hs "Method not allowed" 405
      db := db, storeAccesses := 0, log := [] }

/-- The id segment of an item path: `path[len("/api/students/"):]`. -/
def idSegment (path : String) : String :=
  path.drop ("/api/students/".length)

/-- `studentByIDHandler` for the item path `/api/students/...`: set the four
headers, short-circuit OPTIONS, parse the trailing segment with Atoi (400
on failure, before any store access), then dispatch GET, PUT and DELETE,
405 otherwise. -/
def studentByIDHandler (req : Request) (db : DBState) : HandlerResult :=
  let hs := corsHeaders
  if req.method == "OPTIONS" then
    { resp := { status := 200, headers := hs, body := .empty }
      db := db, storeAccesses := 0, log := [] }
  else
    match atoi (idSegment req.path) with
    | none =>
      { resp := httpError hs "Invalid student ID format" 400
        db := db, storeAccesses := 0, log := [] }
    | some id =>
      if req.method == "GET" then
        getStudentByID hs db id
      else if req.method == "PUT" then
        updateStudent hs req.body db id
      else if req.method == "DELETE" then
        deleteStudent hs db id
      else
        { resp := httpError hs "Method not allowed" 405
          db := db, storeAccesses := 0, log := [] }

/-- Well-formedness the SERIAL sequence guarantees: every existing row id is
below the next sequence value. -/
def DBState.WF (db : DBState) : Prop :=
  ∀ r ∈ db.rows, r.id < db.nextId

instance (db : DBState) : Decidable db.WF := by
  unfold DBState.WF; infer_instance

/-- The empty store with the sequence at 1, as `createTable` leaves a fresh
database. -/
def freshDb : DBState := { rows := [], nextId := 1, currentDate := "2026-10-11" }

/-! ## Helper lemmas -/

/-- Dispatch of the collection handler on POST. -/
theorem studentsHandler_post (p : String) (b : Body) (db : DBState) :
    studentsHandler ⟨"POST", p, b⟩ db = createStudent corsHeaders b db := rfl

/-- Dispatch of the collection handler on GET. -/
theorem studentsHandler_get (p : String) (b : Body) (db : DBState) :
    studentsHandler ⟨"GET", p, b⟩ db = getAllStudents corsHeaders db := rfl

/-- A successful INSERT appends the new row and returns the sequence value
and the current date. -/
theorem dbInsertReturning_ok (db : DBState) (fn ln em : String)
    (hEmail : db.rows.any (fun r => r.email == em) = false) :
    dbInsertReturning db fn ln em =
      .ok ({ rows := db.rows ++ [⟨db.nextId, fn, ln, em, some db.currentDate⟩]
             nextId := db.nextId + 1
             currentDate := db.currentDate },
           db.nextId, db.currentDate) := by
  simp [dbInsertReturning, hEmail]

/-- `find?` on a list extended with a fresh row finds that row when nothing
earlier matches. -/
theorem find_append_fresh (rows : List DBRow) (row : DBRow) (n : Int)
    (h : ∀ r ∈ rows, r.id ≠ n) (hrow : row.id = n) :
    (rows ++ [row]).find? (fun r => r.id == n) = some row := by
  induction rows with
  | nil => simp [List.find?, hrow]
  | cons a as ih =>
    have ha : (a.id == n) = false := by
      simp only [beq_eq_false_iff_ne]
      exact h a (by simp)
    rw [List.cons_append, List.find?]
    simp only [ha]
    exact ih (fun r hr => h r (by simp [hr]))

/-! ## Claims -/

/-- C1: a create request with a valid-JSON body inserts a new record, the
store assigns id (the sequence value) and enrollment_date (the current
date), any id or enrollment_date in the body is ignored, and the response
has status 201 with the full record including the store-assigned fields. -/
theorem C1_create_inserts
    (s : Student) (db : DBState) (i : Int) (d : String)
    (hEmail : db.rows.any (fun r => r.email == s.email) = false) :
    (studentsHandler ⟨"POST", "/api/students", .valid s⟩ db).resp.status = 201 ∧
    (studentsHandler ⟨"POST", "/api/students", .valid s⟩ db).resp.body =
      .jsonStudent ⟨db.nextId, s.first_name, s.last_name, s.email, db.currentDate⟩ ∧
    (studentsHandler ⟨"POST", "/api/students", .valid s⟩ db).db.rows =
      db.rows ++ [⟨db.nextId, s.first_name, s.last_name, s.email, some db.currentDate⟩] ∧
    (studentsHandler ⟨"POST", "/api/students", .valid s⟩ db).db.nextId = db.nextId + 1 ∧
    studentsHandler
        ⟨"POST", "/api/students", .valid ⟨i, s.first_name, s.last_name, s.email, d⟩⟩ db =
      studentsHandler ⟨"POST", "/api/students", .valid s⟩ db := by
  rw [studentsHandler_post, studentsHandler_post]
  simp [createStudent, dbInsertReturning_ok db _ _ _ hEmail]

/-- Witness for C1 at a concrete request and the fresh store. -/
theorem C1_create_inserts_witness :
    (studentsHandler
        ⟨"POST", "/api/students",
         .valid ⟨0, "Ada", "Lovelace", "ada@example.com", ""⟩⟩ freshDb).resp.status = 201 :=
  (C1_create_inserts ⟨0, "Ada", "Lovelace", "ada@example.com", ""⟩ freshDb 0 ""
    (by decide)).1

/-- C2: for every record successfully created, reading by the id returned at
creation (on the store state left by the creation) returns a record equal in
all five fields to the record returned in the creation response. -/
theorem C2_read_after_create (s : Student) (db : DBState)
    (hWF : db.WF)
    (hEmail : db.rows.any (fun r => r.email == s.email) = false) :
    ∃ created : Student,
      (studentsHandler ⟨"POST", "/api/students", .valid s⟩ db).resp.body =
        .jsonStudent created ∧
      (getStudentByID corsHeaders
          (studentsHandler ⟨"POST", "/api/students", .valid s⟩ db).db
          created.id).resp.status = 200 ∧
      (getStudentByID corsHeaders
          (studentsHandler ⟨"POST", "/api/students", .valid s⟩ db).db
          created.id).resp.body = .jsonStudent created := by
  refine ⟨⟨db.nextId, s.first_name, s.last_name, s.email, db.currentDate⟩, ?_, ?_, ?_⟩ <;>
    rw [studentsHandler_post] <;>
    simp only [createStudent, dbInsertReturning_ok db _ _ _ hEmail] <;>
    try rfl
  all_goals
    have hfind :
        (db.rows ++
          [(⟨db.nextId, s.first_name, s.last_name, s.email,
             some db.currentDate⟩ : DBRow)]).find?
          (fun r => r.id == db.nextId) = some
          ⟨db.nextId, s.first_name, s.last_name, s.email, some db.currentDate⟩ :=
      find_append_fresh db.rows _ db.nextId
        (fun r hr => Int.ne_of_lt (hWF r hr)) rfl
  all_goals simp [getStudentByID, hfind, scanRow]

/-- Witness for C2 at a concrete creation on the fresh store. -/
theorem C2_read_after_create_witness :
    ∃ created : Student,
      (studentsHandler
          ⟨"POST", "/api/students",
           .valid ⟨0, "Ada", "Lovelace", "ada@example.com", ""⟩⟩ freshDb).resp.body =
        .jsonStudent created ∧
      (getStudentByID corsHeaders
          (studentsHandler
            ⟨"POST", "/api/students",
             .valid ⟨0, "Ada", "Lovelace", "ada@example.com", ""⟩⟩ freshDb).db
          created.id).resp.status = 200 ∧
      (getStudentByID corsHeaders
          (studentsHandler
            ⟨"POST", "/api/students",
             .valid ⟨0, "Ada", "Lovelace", "ada@example.com", ""⟩⟩ freshDb).db
          created.id).resp.body = .jsonStudent created :=
  C2_read_after_create ⟨0, "Ada", "Lovelace", "ada@example.com", ""⟩ freshDb
    (by decide) (by decide)

/-- C3: an update with a valid-JSON body overwrites all three mutable
fields of the targeted record unconditionally with the decoded values
(with Go zero values standing for omitted fields), fails with 404 exactly
when the affected-row count is zero, and on success responds with the
record made of the path id and the submitted mutable fields, whose
enrollment_date is the one from the request body, not re-read from the
store. -/
theorem C3_update_overwrites (s : Student) (db : DBState) (id : Int)
    (hNoDup : (db.rows.any (fun r => r.id == id) &&
               db.rows.any (fun r => r.email == s.email && !(r.id == id))) = false) :
    ((updateStudent corsHeaders (.valid s) db id).resp.status = 404 ↔
      (db.rows.filter (fun r => r.id == id)).length = 0) ∧
    (updateStudent corsHeaders (.valid s) db id).db.rows =
      db.rows.map (fun r =>
        if r.id == id then
          ⟨r.id, s.first_name, s.last_name, s.email, r.enrollment_date⟩
        else r) ∧
    ((db.rows.filter (fun r => r.id == id)).length ≠ 0 →
      (updateStudent corsHeaders (.valid s) db id).resp.status = 200 ∧
      (updateStudent corsHeaders (.valid s) db id).resp.body =
        .jsonStudent ⟨id, s.first_name, s.last_name, s.email, s.enrollment_date⟩) := by
  by_cases hz : (db.rows.filter (fun r => r.id == id)).length = 0 <;>
    simp [updateStudent, dbUpdateExec, hNoDup, hz, httpError]

/-- Witness for C3: updating record 1 on a one-row store. -/
theorem C3_update_overwrites_witness :
    ((updateStudent corsHeaders
        (.valid ⟨0, "Grace", "Hopper", "grace@example.com", ""⟩)
        ⟨[⟨1, "Ada", "Lovelace", "ada@example.com", some "2026-10-11"⟩], 2, "2026-10-11"⟩
        1).resp.status = 404 ↔
      ((([⟨1, "Ada", "Lovelace", "ada@example.com", some "2026-10-11"⟩] :
          List DBRow).filter (fun r => r.id == 1)).length = 0)) ∧
    (updateStudent corsHeaders
        (.valid ⟨0, "Grace", "Hopper", "grace@example.com", ""⟩)
        ⟨[⟨1, "Ada", "Lovelace", "ada@example.com", some "2026-10-11"⟩], 2, "2026-10-11"⟩
        1).resp.status = 200 := by
  have h := C3_update_overwrites ⟨0, "Grace", "Hopper", "grace@example.com", ""⟩
    ⟨[⟨1, "Ada", "Lovelace", "ada@example.com", some "2026-10-11"⟩], 2, "2026-10-11"⟩
    1 (by decide)
  exact ⟨h.1, (h.2.2 (by decide)).1⟩

/-- C4: the create operation responds 400 without any store access exactly
when the body fails to decode as JSON of the expected shape; and when the
store rejects the insert (duplicate email), it responds 500 with a body
that contains the store-reported error text verbatim as a substring. -/
theorem C4_create_errors (b : Body) (db : DBState) :
    (((createStudent corsHeaders b db).resp.status = 400 ∧
      (createStudent corsHeaders b db).storeAccesses = 0) ↔ b = .malformed) ∧
    (∀ s : Student, b = .valid s →
      db.rows.any (fun r => r.email == s.email) = true →
      (createStudent corsHeaders b db).resp.status = 500 ∧
      ∃ pre post,
        (createStudent corsHeaders b db).resp.body =
          .text (pre ++ dupEmailErr ++ post)) := by
  constructor
  · cases b with
    | malformed => simp [createStudent, httpError]
    | valid s =>
      by_cases hd : db.rows.any (fun r => r.email == s.email) = true <;>
        simp [createStudent, dbInsertReturning, hd, httpError]
  · rintro s rfl hd
    refine ⟨by simp [createStudent, dbInsertReturning, hd, httpError],
      "Error creating student: ", "\n", ?_⟩
    simp [createStudent, dbInsertReturning, hd, httpError, String.append_assoc]

/-- Witness for C4: a duplicate-email insert on a one-row store. -/
theorem C4_create_errors_witness :
    (createStudent corsHeaders
        (.valid ⟨0, "Eva", "Twin", "ada@example.com", ""⟩)
        ⟨[⟨1, "Ada", "Lovelace", "ada@example.com", some "2026-10-11"⟩], 2,
          "2026-10-11"⟩).resp.status = 500 ∧
    ∃ pre post,
      (createStudent corsHeaders
          (.valid ⟨0, "Eva", "Twin", "ada@example.com", ""⟩)
          ⟨[⟨1, "Ada", "Lovelace", "ada@example.com", some "2026-10-11"⟩], 2,
            "2026-10-11"⟩).resp.body = .text (pre ++ dupEmailErr ++ post) :=
  (C4_create_errors (.valid ⟨0, "Eva", "Twin", "ada@example.com", ""⟩)
      ⟨[⟨1, "Ada", "Lovelace", "ada@example.com", some "2026-10-11"⟩], 2,
        "2026-10-11"⟩).2
    ⟨0, "Eva", "Twin", "ada@example.com", ""⟩ rfl (by decide)

/-- C5: the delete operation removes every row with the path's id, fails
with 404 exactly when the affected-row count is zero, and on success
responds with status 204 and an empty body. -/
theorem C5_delete (db : DBState) (id : Int) :
    ((deleteStudent corsHeaders db id).resp.status = 404 ↔
      (db.rows.filter (fun r => r.id == id)).length = 0) ∧
    ((db.rows.filter (fun r => r.id == id)).length ≠ 0 →
      (deleteStudent corsHeaders db id).resp.status = 204 ∧
      (deleteStudent corsHeaders db id).resp.body = .empty) ∧
    (deleteStudent corsHeaders db id).db.rows =
      db.rows.filter (fun r => !(r.id == id)) := by
  by_cases hz : (db.rows.filter (fun r => r.id == id)).length = 0 <;>
    simp [deleteStudent, dbDeleteExec, hz, httpError]

/-- Witness for C5: deleting record 1 from a one-row store. -/
theorem C5_delete_witness :
    (deleteStudent corsHeaders
        ⟨[⟨1, "Ada", "Lovelace", "ada@example.com", some "2026-10-11"⟩], 2,
          "2026-10-11"⟩ 1).resp.status = 204 ∧
    (deleteStudent corsHeaders
        ⟨[⟨1, "Ada", "Lovelace", "ada@example.com", some "2026-10-11"⟩], 2,
          "2026-10-11"⟩ 1).resp.body = .empty :=
  (C5_delete
      ⟨[⟨1, "Ada", "Lovelace", "ada@example.com", some "2026-10-11"⟩], 2,
        "2026-10-11"⟩ 1).2.1 (by decide)

/-- C6 counterexample: the claim says the trailing segment is parsed as a
non-negative integer identifier, so the segment `-1`, which is not a
non-negative integer numeral, would have to be rejected with 400; but
`strconv.Atoi` accepts the sign, the handler dispatches the store lookup
with id -1 and responds 404, not 400, and it does access the store. -/
theorem C6_counterexample :
    atoi (idSegment "/api/students/-1") = some (-1) ∧
    (studentByIDHandler ⟨"GET", "/api/students/-1", .malformed⟩ freshDb).resp.status = 404 ∧
    (studentByIDHandler ⟨"GET", "/api/students/-1", .malformed⟩ freshDb).resp.status ≠ 400 ∧
    (studentByIDHandler ⟨"GET", "/api/students/-1", .malformed⟩ freshDb).storeAccesses = 1 := by
  decide

/-- C6 amended: the trailing segment of the item path is parsed as a
(possibly negative) 64-bit decimal integer; for every trailing segment
that does not parse as such an integer, and every method that reaches the
id parse (every method except OPTIONS), the request fails with 400 before
any store access and the store is unchanged. -/
theorem C6_bad_id_rejected (req : Request) (db : DBState)
    (hm : req.method ≠ "OPTIONS")
    (hp : atoi (idSegment req.path) = none) :
    (studentByIDHandler req db).resp.status = 400 ∧
    (studentByIDHandler req db).storeAccesses = 0 ∧
    (studentByIDHandler req db).db = db := by
  have hm' : (req.method == "OPTIONS") = false := by
    simp [hm]
  simp [studentByIDHandler, hm', hp, httpError]

/-- Witness for the amended C6: GET on the non-numeric segment `abc`. -/
theorem C6_bad_id_rejected_witness :
    (studentByIDHandler ⟨"GET", "/api/students/abc", .malformed⟩ freshDb).resp.status = 400 ∧
    (studentByIDHandler ⟨"GET", "/api/students/abc", .malformed⟩ freshDb).storeAccesses = 0 ∧
    (studentByIDHandler ⟨"GET", "/api/students/abc", .malformed⟩ freshDb).db = freshDb :=
  C6_bad_id_rejected ⟨"GET", "/api/students/abc", .malformed⟩ freshDb
    (by decide) (by decide)

/-- A successful scan preserves the row id. -/
theorem scanRow_id (r : DBRow) (st : Student) (h : scanRow r = some st) :
    st.id = r.id := by
  cases he : r.enrollment_date <;> simp [scanRow, he] at h
  rw [← h]

/-- The scan loop of `getAllStudents`, characterized: starting from a
non-nil slice it appends the successfully scanned rows and logs one line
per row that fails to scan. -/
theorem scanLoop_spec (rows : List DBRow) (elems : List Student) (lg : List String) :
    scanLoop rows ⟨false, elems⟩ lg =
      (⟨false, elems ++ rows.filterMap scanRow⟩,
       lg ++ (rows.filter (fun r => (scanRow r).isNone)).map
         (fun _ => "Error scanning student:")) := by
  induction rows generalizing elems lg with
  | nil => simp [scanLoop]
  | cons r rest ih =>
    cases h : scanRow r with
    | none =>
      simp [scanLoop, h, ih, List.filterMap_cons, List.filter_cons]
    | some s =>
      simp [scanLoop, h, ih, GoSlice.push, List.filterMap_cons, List.filter_cons]

/-- Scanning a list of rows sorted by id yields students sorted by id. -/
theorem sorted_filterMap_scan (rows : List DBRow)
    (h : List.Sorted rowLe rows) :
    List.Sorted (fun a b : Student => a.id ≤ b.id) (rows.filterMap scanRow) := by
  refine List.pairwise_filterMap.2 (h.imp ?_)
  intro a b hab st hst st' hst'
  simp only [Option.mem_def] at hst hst'
  rw [scanRow_id a st hst, scanRow_id b st' hst']
  exact hab

/-- C7: the list operation responds 200 with a JSON array (the empty array,
not null, on an empty store) holding, in ascending id order, the decoding
of every row that scans successfully; rows that fail to scan are skipped
with one logged warning each while the remaining rows are still returned. -/
theorem C7_list (db : DBState) :
    ∃ l : List Student,
      (getAllStudents corsHeaders db).resp.status = 200 ∧
      (getAllStudents corsHeaders db).resp.body = .jsonStudents l ∧
      List.Sorted (fun a b : Student => a.id ≤ b.id) l ∧
      l = (dbQueryAll db).filterMap scanRow ∧
      (db.rows = [] → l = []) ∧
      (∀ row ∈ db.rows, ∀ st, scanRow row = some st → st ∈ l) ∧
      (getAllStudents corsHeaders db).log.length =
        ((dbQueryAll db).filter (fun r => (scanRow r).isNone)).length := by
  refine ⟨(dbQueryAll db).filterMap scanRow, ?_, ?_, ?_, rfl, ?_, ?_, ?_⟩
  · rfl
  · simp [getAllStudents, emptySliceLit, scanLoop_spec, encodeSlice]
  · exact sorted_filterMap_scan _ (List.sorted_insertionSort rowLe db.rows)
  · intro h
    simp [dbQueryAll, h, List.insertionSort]
  · intro row hrow st hst
    refine List.mem_filterMap.2 ⟨row, ?_, hst⟩
    exact ((List.perm_insertionSort rowLe db.rows).mem_iff).2 hrow
  · simp [getAllStudents, emptySliceLit, scanLoop_spec]

/-- Witness for C7: listing the empty store yields the empty array. -/
theorem C7_list_witness :
    ∃ l : List Student,
      (getAllStudents corsHeaders freshDb).resp.body = .jsonStudents l ∧ l = [] := by
  obtain ⟨l, -, hbody, -, -, hemp, -, -⟩ := C7_list freshDb
  exact ⟨l, hbody, hemp rfl⟩

/-- The headers left by `http.Error` after the CORS setup: Content-Type is
overwritten with `text/plain; charset=utf-8` and the nosniff header is
added. -/
def errHeaders : Headers :=
  setHeader (setHeader corsHeaders "Content-Type" "text/plain; charset=utf-8")
    "X-Content-Type-Options" "nosniff"

/-- Every handler branch ends in one of two header states: the four headers
set at the top (success branches, status below 400), or the `http.Error`
variant (error branches, status at least 400). -/
def headersOk (r : HandlerResult) : Prop :=
  (r.resp.headers = corsHeaders ∧ r.resp.status < 400) ∨
  (r.resp.headers = errHeaders ∧ 400 ≤ r.resp.status)

theorem headersOk_getAllStudents (db : DBState) :
    headersOk (getAllStudents corsHeaders db) := by
  left
  constructor <;> simp [getAllStudents, emptySliceLit, scanLoop_spec]

theorem headersOk_createStudent (b : Body) (db : DBState) :
    headersOk (createStudent corsHeaders b db) := by
  cases b with
  | malformed => right; exact ⟨rfl, of_decide_eq_true rfl⟩
  | valid s =>
    cases h : dbInsertReturning db s.first_name s.last_name s.email with
    | error e =>
      right
      constructor <;> simp [createStudent, h, httpError, errHeaders]
    | ok res =>
      left
      constructor <;> simp [createStudent, h]

theorem headersOk_getStudentByID (db : DBState) (id : Int) :
    headersOk (getStudentByID corsHeaders db id) := by
  cases hf : db.rows.find? (fun r => r.id == id) with
  | none =>
    right
    constructor <;> simp [getStudentByID, hf, httpError, errHeaders]
  | some r =>
    cases hs : scanRow r with
    | none =>
      right
      constructor <;> simp [getStudentByID, hf, hs, httpError, errHeaders]
    | some st =>
      left
      constructor <;> simp [getStudentByID, hf, hs]

theorem headersOk_updateStudent (b : Body) (db : DBState) (id : Int) :
    headersOk (updateStudent corsHeaders b db id) := by
  cases b with
  | malformed => right; exact ⟨rfl, of_decide_eq_true rfl⟩
  | valid s =>
    cases h : dbUpdateExec db s.first_name s.last_name s.email id with
    | error e =>
      right
      constructor <;> simp [updateStudent, h, httpError, errHeaders]
    | ok res =>
      by_cases hz : res.2 = 0
      · right
        constructor <;> simp [updateStudent, h, hz, httpError, errHeaders]
      · left
        constructor <;> simp [updateStudent, h, hz]

theorem headersOk_deleteStudent (db : DBState) (id : Int) :
    headersOk (deleteStudent corsHeaders db id) := by
  by_cases hz : (db.rows.filter (fun r => r.id == id)).length = 0
  · right
    constructor <;> simp [deleteStudent, dbDeleteExec, hz, httpError, errHeaders]
  · left
    constructor <;> simp [deleteStudent, dbDeleteExec, hz]

theorem headersOk_studentsHandler (req : Request) (db : DBState) :
    headersOk (studentsHandler req db) := by
  unfold studentsHandler
  by_cases h1 : (req.method == "OPTIONS") = true
  · rw [if_pos h1]
    exact Or.inl ⟨rfl, of_decide_eq_true rfl⟩
  · rw [if_neg h1]
    by_cases h2 : (req.method == "GET") = true
    · rw [if_pos h2]
      exact headersOk_getAllStudents db
    · rw [if_neg h2]
      by_cases h3 : (req.method == "POST") = true
      · rw [if_pos h3]
        exact headersOk_createStudent req.body db
      · rw [if_neg h3]
        exact Or.inr ⟨rfl, of_decide_eq_true rfl⟩

theorem headersOk_studentByIDHandler (req : Request) (db : DBState) :
    headersOk (studentByIDHandler req db) := by
  unfold studentByIDHandler
  by_cases h1 : (req.method == "OPTIONS") = true
  · rw [if_pos h1]
    exact Or.inl ⟨rfl, of_decide_eq_true rfl⟩
  · rw [if_neg h1]
    cases hp : atoi (idSegment req.path) with
    | none => exact Or.inr ⟨rfl, of_decide_eq_true rfl⟩
    | some id =>
      dsimp only
      by_cases h2 : (req.method == "GET") = true
      · rw [if_pos h2]
        exact headersOk_getStudentByID db id
      · rw [if_neg h2]
        by_cases h3 : (req.method == "PUT") = true
        · rw [if_pos h3]
          exact headersOk_updateStudent req.body db id
        · rw [if_neg h3]
          by_cases h4 : (req.method == "DELETE") = true
          · rw [if_pos h4]
            exact headersOk_deleteStudent db id
          · rw [if_neg h4]
            exact Or.inr ⟨rfl, of_decide_eq_true rfl⟩

/-- The header facts holding for every response: the three permissive CORS
headers are always present, successful responses carry the JSON content
type, and error responses carry the plain-text content type that
`http.Error` writes. -/
def corsOk (r : HandlerResult) : Prop :=
  getHeader r.resp.headers "Access-Control-Allow-Origin" = some "*" ∧
  getHeader r.resp.headers "Access-Control-Allow-Methods" =
    some "GET, POST, OPTIONS, PUT, DELETE" ∧
  getHeader r.resp.headers "Access-Control-Allow-Headers" = some "Content-Type" ∧
  (r.resp.status < 400 →
    getHeader r.resp.headers "Content-Type" = some "application/json") ∧
  (400 ≤ r.resp.status →
    getHeader r.resp.headers "Content-Type" = some "text/plain; charset=utf-8")

theorem corsOk_of_headersOk {r : HandlerResult} (h : headersOk r) : corsOk r := by
  rcases h with ⟨hh, hs⟩ | ⟨hh, hs⟩ <;>
    refine ⟨by rw [hh]; decide, by rw [hh]; decide, by rw [hh]; decide, ?_, ?_⟩
  · intro _; rw [hh]; decide
  · intro hge; omega
  · intro hlt; omega
  · intro _; rw [hh]; decide

/-- C8 counterexample: the claim says every response carries the
structured-JSON content type, but the 400 response to a non-numeric id
(produced through `http.Error`) carries `text/plain; charset=utf-8`
instead. -/
theorem C8_counterexample :
    getHeader (studentByIDHandler ⟨"GET", "/api/students/abc", .malformed⟩
        freshDb).resp.headers "Content-Type" =
      some "text/plain; charset=utf-8" ∧
    ¬ getHeader (studentByIDHandler ⟨"GET", "/api/students/abc", .malformed⟩
        freshDb).resp.headers "Content-Type" =
      some "application/json" := by
  decide

/-- C8 amended: every response of either handler carries the permissive
CORS headers (any origin, the methods GET/POST/PUT/DELETE/OPTIONS and the
Content-Type header); responses with a success status carry the
structured-JSON content type, while error responses carry the plain-text
content type written by `http.Error`. -/
theorem C8_headers (req : Request) (db : DBState) :
    corsOk (studentsHandler req db) ∧ corsOk (studentByIDHandler req db) :=
  ⟨corsOk_of_headersOk (headersOk_studentsHandler req db),
   corsOk_of_headersOk (headersOk_studentByIDHandler req db)⟩

/-- Witness for the amended C8: the list request on the fresh store carries
the CORS origin header and the JSON content type. -/
theorem C8_headers_witness :
    getHeader (studentsHandler ⟨"GET", "/api/students", .malformed⟩
        freshDb).resp.headers "Access-Control-Allow-Origin" = some "*" ∧
    getHeader (studentsHandler ⟨"GET", "/api/students", .malformed⟩
        freshDb).resp.headers "Content-Type" = some "application/json" :=
  ⟨(C8_headers ⟨"GET", "/api/students", .malformed⟩ freshDb).1.1,
   (C8_headers ⟨"GET", "/api/students", .malformed⟩ freshDb).1.2.2.2.1 (by decide)⟩

/-- C9 counterexample: the claim says a create request with an empty
first_name or last_name does not result in a stored record with an empty
name field, but neither the handler nor the schema rejects empty strings:
the create succeeds with status 201 and the store holds a record whose
first_name and last_name are both the empty string. -/
theorem C9_counterexample :
    (createStudent corsHeaders (.valid ⟨0, "", "", "x@example.com", ""⟩)
        freshDb).resp.status = 201 ∧
    (createStudent corsHeaders (.valid ⟨0, "", "", "x@example.com", ""⟩)
        freshDb).db.rows =
      [⟨1, "", "", "x@example.com", some "2026-10-11"⟩] := by
  decide

/-- C9 amended: the schema only declares first_name and last_name NOT NULL;
empty strings are not rejected anywhere, so a create request with empty
first_name and last_name succeeds (absent an email conflict) and stores
the empty strings. -/
theorem C9_empty_names_stored (db : DBState) (i : Int) (em dt : String)
    (hEmail : db.rows.any (fun r => r.email == em) = false) :
    (createStudent corsHeaders (.valid ⟨i, "", "", em, dt⟩) db).resp.status = 201 ∧
    (⟨db.nextId, "", "", em, some db.currentDate⟩ : DBRow) ∈
      (createStudent corsHeaders (.valid ⟨i, "", "", em, dt⟩) db).db.rows := by
  simp [createStudent, dbInsertReturning_ok db _ _ _ hEmail]

/-- Witness for the amended C9 on the fresh store. -/
theorem C9_empty_names_stored_witness :
    (createStudent corsHeaders (.valid ⟨0, "", "", "x@example.com", ""⟩)
        freshDb).resp.status = 201 ∧
    (⟨1, "", "", "x@example.com", some "2026-10-11"⟩ : DBRow) ∈
      (createStudent corsHeaders (.valid ⟨0, "", "", "x@example.com", ""⟩)
        freshDb).db.rows :=
  C9_empty_names_stored freshDb 0 "x@example.com" "" (by decide)

/-- C10: an item-path request whose trailing segment parses as a negative
integer is not rejected as a bad request: the handler dispatches the store
operation with the negative id, and a GET, PUT or DELETE for a negative id
matching no record responds 404 (with one store access for the GET), not
400. -/
theorem C10_negative_id (db : DBState) (path : String) (b : Body)
    (id : Int) (s : Student)
    (hid : atoi (idSegment path) = some id)
    (_hneg : id < 0)
    (hnone : ∀ r ∈ db.rows, r.id ≠ id) :
    (studentByIDHandler ⟨"GET", path, b⟩ db).resp.status = 404 ∧
    (studentByIDHandler ⟨"PUT", path, .valid s⟩ db).resp.status = 404 ∧
    (studentByIDHandler ⟨"DELETE", path, b⟩ db).resp.status = 404 ∧
    (studentByIDHandler ⟨"GET", path, b⟩ db).storeAccesses = 1 ∧
    (studentByIDHandler ⟨"GET", path, b⟩ db).resp.status ≠ 400 := by
  have hfind : db.rows.find? (fun r => r.id == id) = none := by
    simp only [List.find?_eq_none, beq_eq_false_iff_ne, ne_eq]
    intro r hr
    simp [hnone r hr]
  have hfilter : db.rows.filter (fun r => r.id == id) = [] := by
    simp only [List.filter_eq_nil_iff]
    intro r hr
    simp [hnone r hr]
  have hany : db.rows.any (fun r => r.id == id) = false := by
    simp only [List.any_eq_false]
    intro r hr
    simp [hnone r hr]
  refine ⟨?_, ?_, ?_, ?_, ?_⟩ <;>
    simp [studentByIDHandler, hid, getStudentByID, hfind, updateStudent,
      dbUpdateExec, hany, hfilter, deleteStudent, dbDeleteExec, httpError]

/-- Witness for C10: the item path with trailing segment `-1` on the fresh
store. -/
theorem C10_negative_id_witness :
    (studentByIDHandler ⟨"GET", "/api/students/-1", .malformed⟩ freshDb).resp.status = 404 ∧
    (studentByIDHandler ⟨"GET", "/api/students/-1", .malformed⟩ freshDb).resp.status ≠ 400 := by
  have h := C10_negative_id freshDb "/api/students/-1" .malformed (-1)
    ⟨0, "", "", "", ""⟩ (by decide) (by decide) (by intro r hr; cases hr)
  exact ⟨h.1, h.2.2.2.2⟩
